import Mathlib

/-
Shallow embedding of the bluez-alsa proxy plug-in and monitor library:
  src/asound/bluealsa-pcm-proxy.c  (ALSA ioplug callbacks and the IO worker)
  src/bluealsalib/bluealsa.c       (device monitor library)
Machine integers: snd_pcm_uframes_t is an unsigned 64-bit quantity; the only
place the code relies on unsigned wraparound is the assignment io_ptr = -1 on
the underrun path, modelled explicitly as 2^64 - 1.  File descriptors are
modelled as Int so that the sentinel value -1 can be written directly.
-/

/-- ALSA stream states as used by the plug-in (snd_pcm_state_t). -/
inductive SndPcmState
  | opened
  | setup
  | prepared
  | running
  | xrun
  | draining
  | paused
  | suspended
  | disconnected
deriving DecidableEq, Repr

/-- Stream direction (snd_pcm_stream_t). -/
inductive PcmStreamDir
  | playback
  | capture
deriving DecidableEq, Repr

/-- The pair of pointers the worker publishes into the pcm structure:
pcm->io_ptr and pcm->io_hw_ptr. -/
structure PcmPtrs where
  io_ptr : Nat
  io_hw_ptr : Nat
deriving DecidableEq, Repr

/-- Unsigned wrap of the C assignment io_ptr = -1 (snd_pcm_uframes_t is a
64-bit unsigned type). -/
def UFRAMES_MAX : Nat := 18446744073709551615

/-- What the worker does with the stream state at the top of each period
iteration (bluealsa-pcm-proxy.c lines 187-197). -/
inductive DispatchAct
  | proceed
  | exitWorker
  | waitResume
deriving DecidableEq, Repr

/-- The switch on io->state at the top of the period loop: RUNNING and
DRAINING proceed, DISCONNECTED exits the worker, and every other state makes
the worker block in sigwait for the resume signal (leaving the state
untouched). -/
def ioThreadDispatch : SndPcmState → DispatchAct
  | .running => .proceed
  | .draining => .proceed
  | .disconnected => .exitWorker
  | _ => .waitResume

/-- Inputs of one period-loop iteration, as read in lines 199-206: the
pointers, the sizes, and the consumer's appl_ptr sampled at the underrun
test. -/
structure PeriodIn where
  io_ptr : Nat
  io_hw_ptr : Nat
  buffer_size : Nat
  hw_boundary : Nat
  period_size : Nat
  appl_ptr : Nat
  frame_size : Nat
deriving DecidableEq, Repr

/-- Frames moved this period (lines 203 and 213-214): the period size, clipped
to the leftover of the ring buffer when the buffer holds a fractional number
of periods. -/
def periodFrames (i : PeriodIn) : Nat :=
  if i.buffer_size - i.io_ptr < i.period_size then i.buffer_size - i.io_ptr
  else i.period_size

/-- The pointer-advance pattern of lines 218-225: add, then subtract the
modulus once if the sum reached it. -/
def advanceWrap (p adv m : Nat) : Nat :=
  if p + adv ≥ m then p + adv - m else p + adv

/-- Result of one syscall in the playback write loop: a successful transfer of
n bytes, an EINTR to be retried, or a fatal error (any other errno). -/
inductive WriteRes
  | ok (n : Nat)
  | eintr
  | err
deriving DecidableEq, Repr

/-- How the playback write loop (lines 261-271) ended: all bytes written, a
fatal error with some bytes still unwritten, or the supplied syscall-result
list ran out (an incomplete model input, not a program behaviour). -/
inductive WriteEnd
  | done
  | fatal (remaining : Nat)
  | stuck (remaining : Nat)
deriving DecidableEq, Repr

/-- The do/while write loop of lines 261-271: retry on EINTR, keep writing on
partial writes, stop fatally on any other error, finish when len reaches 0. -/
def write_loop : Nat → List WriteRes → WriteEnd
  | 0, _ => .done
  | len+1, [] => .stuck (len+1)
  | len+1, .eintr :: rs => write_loop (len+1) rs
  | len+1, .err :: _ => .fatal (len+1)
  | len+1, .ok k :: rs => write_loop (len+1 - k) rs

/-- Result of one syscall in the capture read loop: n bytes read (0 means the
FIFO writer closed), EINTR, or a fatal error. -/
inductive ReadRes
  | ok (n : Nat)
  | eintr
  | err
deriving DecidableEq, Repr

/-- How the capture read loop (lines 231-248) ended. writerClosed is the
ret == 0 case that sends the worker back to its wait-for-fd state. -/
inductive ReadEnd
  | done
  | writerClosed (remaining : Nat)
  | fatal (remaining : Nat)
  | stuck (remaining : Nat)
deriving DecidableEq, Repr

/-- The while loop of lines 231-241 for len > 0: retry on EINTR, continue on
partial reads, exit on a 0 return (writer closed) or a fatal error. -/
def read_loop : Nat → List ReadRes → ReadEnd
  | 0, _ => .done
  | len+1, [] => .stuck (len+1)
  | len+1, .eintr :: rs => read_loop (len+1) rs
  | len+1, .err :: _ => .fatal (len+1)
  | len+1, .ok 0 :: _ => .writerClosed (len+1)
  | len+1, .ok (k+1) :: rs => read_loop (len+1 - (k+1)) rs

/-- The full capture transfer of lines 206 and 231-248.  When len = 0 the
while loop never runs, ret keeps its initial value 0, and line 247 then sends
the worker to wait_pcm_fd exactly as a writer close would. -/
def capture_read_loop (len : Nat) (rs : List ReadRes) : ReadEnd :=
  if len = 0 then .writerClosed 0 else read_loop len rs

/-- How one period iteration leaves the loop. -/
inductive StepEnd
  | nextPeriod
  | rewaitFd
  | exitWorker
  | modelIncomplete
deriving DecidableEq, Repr

/-- Observable outcome of one period iteration: the pointer pair published
into pcm (unchanged fields keep their old value when the sync label is not
reached), the state assignment performed, the values written to event_fd,
the bytes actually moved through the FIFO, and how the loop continues. -/
structure StepOut where
  published : PcmPtrs
  stateSet : Option SndPcmState
  eventWrites : List Nat
  bytesMoved : Nat
  outcome : StepEnd
deriving DecidableEq, Repr

/-- One capture period iteration (lines 199-250 and 277-281): only a fully
read period reaches the sync label that publishes the advanced pointers and
writes 1 to event_fd; a writer close (ret 0) re-enters wait_pcm_fd and a
fatal read error exits the worker, both leaving the published pair as it
was. -/
def captureStep (i : PeriodIn) (reads : List ReadRes) : StepOut :=
  let frames := periodFrames i
  let len := frames * i.frame_size
  let io_ptr' := advanceWrap i.io_ptr frames i.buffer_size
  let hw' := advanceWrap i.io_hw_ptr frames i.hw_boundary
  match capture_read_loop len reads with
  | .done => ⟨⟨io_ptr', hw'⟩, none, [1], len, .nextPeriod⟩
  | .writerClosed r => ⟨⟨i.io_ptr, i.io_hw_ptr⟩, none, [], len - r, .rewaitFd⟩
  | .fatal r => ⟨⟨i.io_ptr, i.io_hw_ptr⟩, none, [], len - r, .exitWorker⟩
  | .stuck r => ⟨⟨i.io_ptr, i.io_hw_ptr⟩, none, [], len - r, .modelIncomplete⟩

/-- One playback period iteration (lines 199-225 and 251-281): the underrun
test of line 254 compares the advanced-and-wrapped hw pointer with appl_ptr
before anything is written; on underrun the state becomes XRUN, io_ptr is
published as (snd_pcm_uframes_t)-1 and event_fd still gets a 1.  Otherwise
the whole period is written before the pointers are published; a fatal write
error exits the worker with the published pair unchanged. -/
def playbackStep (i : PeriodIn) (writes : List WriteRes) : StepOut :=
  let frames := periodFrames i
  let len := frames * i.frame_size
  let io_ptr' := advanceWrap i.io_ptr frames i.buffer_size
  let hw' := advanceWrap i.io_hw_ptr frames i.hw_boundary
  if hw' > i.appl_ptr then
    ⟨⟨UFRAMES_MAX, hw'⟩, some .xrun, [1], 0, .nextPeriod⟩
  else
    match write_loop len writes with
    | .done => ⟨⟨io_ptr', hw'⟩, none, [1], len, .nextPeriod⟩
    | .fatal r => ⟨⟨i.io_ptr, i.io_hw_ptr⟩, none, [], len - r, .exitWorker⟩
    | .stuck r => ⟨⟨i.io_ptr, i.io_hw_ptr⟩, none, [], len - r, .modelIncomplete⟩

/-- bluealsa_proxy_prepare (lines 407-415): reset both ring-buffer pointers
to zero, whatever they were. -/
def bluealsa_proxy_prepare (_p : PcmPtrs) : PcmPtrs := ⟨0, 0⟩

/-- Helper: the add-then-conditionally-subtract pattern agrees with the
mathematical remainder as long as a single subtraction suffices. -/
theorem advanceWrap_eq_mod (p a m : Nat) (h : p + a < 2 * m) :
    advanceWrap p a m = (p + a) % m := by
  unfold advanceWrap
  by_cases hge : p + a ≥ m
  · rw [if_pos hge, Nat.mod_eq_sub_mod hge, Nat.mod_eq_of_lt (by omega)]
  · rw [if_neg hge, Nat.mod_eq_of_lt (by omega)]

/-- Helper: the clipped period never overshoots the ring buffer. -/
theorem periodFrames_le_sub (i : PeriodIn) :
    periodFrames i ≤ i.buffer_size - i.io_ptr := by
  unfold periodFrames
  split <;> omega

/-- Bluetooth profile tags (bluezalsa_type in bluealsa.h; the transport side
uses the matching daemon enum, compared against it at bluealsa.c line 167). -/
inductive BaType
  | typeNull
  | a2dp
  | sco
deriving DecidableEq, Repr

/-- Transport stream direction (BA_PCM_STREAM_...). -/
inductive BaStream
  | playback
  | capture
  | duplex
deriving DecidableEq, Repr

/-- The fields of a daemon transport descriptor that the monitor's matching
loop inspects.  A bdaddr_t is abstracted to a Nat; bacmp(x, y) == 0 becomes
equality. -/
structure BaTransport where
  addr : Nat
  type : BaType
  stream : BaStream
deriving DecidableEq, Repr

/-- The for loop of update_device_attach_state (bluealsa.c lines 153-180),
kept exactly as written: the type filter and the stream filter look at the
transport under inspection, but the address comparison on line 175 reads
transports->addr, that is the address of the FIRST element of the returned
array, carried here as firstAddr. -/
def match_loop (hty : BaType) (haddr : Nat) (firstAddr : Nat) :
    List BaTransport → Option BaTransport
  | [] => none
  | t :: ts =>
    if t.type ≠ hty then match_loop hty haddr firstAddr ts
    else if t.stream ≠ BaStream.capture ∧ t.stream ≠ BaStream.duplex then
      match_loop hty haddr firstAddr ts
    else if haddr = firstAddr then some t
    else match_loop hty haddr firstAddr ts

/-- The transport selection of update_device_attach_state over the array
returned by bluealsa_get_transports: an empty array matches nothing. -/
def find_matching_transport (hty : BaType) (haddr : Nat)
    (ts : List BaTransport) : Option BaTransport :=
  match ts with
  | [] => none
  | t0 :: _ => match_loop hty haddr t0.addr ts

/-- The selection rule in the words of the specification: the first transport
whose own type, stream direction and address all match the bound profile and
address. -/
def select_transport_spec (hty : BaType) (haddr : Nat)
    (ts : List BaTransport) : Option BaTransport :=
  ts.find? (fun t =>
    t.type == hty && (t.stream == BaStream.capture || t.stream == BaStream.duplex)
      && t.addr == haddr)

/-- Atomic effects of the monitor library on its shared state: the
transport_mutex, the snd_fd field, kernel file descriptors, the daemon, and
the client_event_fd notification counter. -/
inductive MEffect
  | lock
  | unlock
  | daemonCloseTransport
  | closeFd (fd : Int)
  | setSndFd (v : Int)
  | openTransport
  | copyTransport
  | notifyClient
  | refreshCall
deriving DecidableEq, Repr

/-- Effects of device_detach (bluealsa.c lines 86-116), given the handle's
bound address and current snd_fd.  The function itself never touches the
transport_mutex, and it performs no client_event_fd write. -/
def device_detach_effects (addr : Option Nat) (snd_fd : Int) : List MEffect :=
  match addr with
  | none => []
  | some _ =>
    if snd_fd = -1 then []
    else [.daemonCloseTransport, .closeFd snd_fd, .setSndFd (-1)]

/-- Effects of update_device_attach_state (bluealsa.c lines 118-218), given
the handle fields it reads, whether bluealsa_get_transports succeeded (and
with which array), and the result of bluealsa_open_transport on the attach
path.  Note two faithfully kept quirks of the source: the snd_fd assignment
on line 199 happens even when the open fails, and that failure path jumps to
the label past the unlock, so the mutex is never released there. -/
def update_device_attach_state_effects (addr : Option Nat) (ba_fd snd_fd : Int)
    (hty : BaType) (getOk : Bool) (ts : List BaTransport) (openRes : Int) :
    List MEffect :=
  MEffect.lock ::
  (match addr with
   | none => [MEffect.unlock]
   | some a =>
     if ba_fd = -1 then [MEffect.unlock]
     else if getOk = false then [MEffect.unlock]
     else
       match find_matching_transport hty a ts with
       | none => device_detach_effects (some a) snd_fd ++ [MEffect.unlock]
       | some _ =>
         if snd_fd ≠ -1 then [MEffect.unlock]
         else if openRes = -1 then [MEffect.openTransport, MEffect.setSndFd (-1)]
         else [MEffect.openTransport, MEffect.setSndFd openRes,
               MEffect.copyTransport, MEffect.notifyClient, MEffect.unlock])

/-- Effects run by bluezalsa_readi when poll reports POLLHUP on snd_fd
(bluealsa.c lines 416-419): a plain call to device_detach, with no mutex
acquired anywhere in bluezalsa_readi. -/
def readi_pollhup_effects (addr : Option Nat) (snd_fd : Int) : List MEffect :=
  device_detach_effects addr snd_fd

/-- Scan of an effect trace checking that every write to snd_fd happens at a
positive mutex depth. -/
def setsLockedFrom : List MEffect → Nat → Bool
  | [], _ => true
  | .lock :: tr, d => setsLockedFrom tr (d + 1)
  | .unlock :: tr, d => setsLockedFrom tr (d - 1)
  | .setSndFd _ :: tr, d => if d = 0 then false else setsLockedFrom tr d
  | _ :: tr, d => setsLockedFrom tr d

/-- Every snd_fd write in the trace happens while the mutex is held. -/
def setsLocked (tr : List MEffect) : Bool := setsLockedFrom tr 0

/-- Number of client_event_fd notifications before the next snd_fd write (or
the end of the trace). -/
def notifiesBeforeNextSet : List MEffect → Nat
  | [] => 0
  | .setSndFd _ :: _ => 0
  | .notifyClient :: tr => notifiesBeforeNextSet tr + 1
  | _ :: tr => notifiesBeforeNextSet tr

/-- Every snd_fd write in the trace is followed by exactly one
client_event_fd notification before the next snd_fd write. -/
def eachSetNotifiedOnce : List MEffect → Bool
  | [] => true
  | .setSndFd _ :: tr => (notifiesBeforeNextSet tr == 1) && eachSetNotifiedOnce tr
  | _ :: tr => eachSetNotifiedOnce tr

/-- The monitor-handle fields bluezalsa_set_device touches: the bound address
(none when released), the profile type, and snd_fd. -/
structure MonState where
  addr : Option Nat
  type : BaType
  snd_fd : Int
deriving DecidableEq, Repr

/-- bluezalsa_set_device (bluealsa.c lines 325-381) as a state transformer
returning (return value, new state, effect trace).  The addr argument is
none for a NULL pointer, some none for a non-null string str2ba rejects, and
some (some a) for a string parsing to address a.  Faithfully kept quirks:
releasing a bound address tells the daemon to close the transport and sets
snd_fd to -1 but never calls close on the old snd_fd; the parse-failure path
returns -1 after clearing the address, leaving the old type in place; the
type field is assigned on every successful path, including addr = NULL on an
already released handle. -/
def bluezalsa_set_device (s : MonState) (addr : Option (Option Nat))
    (ty : BaType) : Int × MonState × List MEffect :=
  if ty = BaType.a2dp ∨ ty = BaType.sco then
    let rel : MonState × List MEffect :=
      match s.addr with
      | none => (s, [])
      | some _ =>
          (⟨none, s.type, -1⟩,
           [MEffect.daemonCloseTransport, MEffect.setSndFd (-1)])
    match addr with
    | none =>
        (0, ⟨rel.1.addr, ty, rel.1.snd_fd⟩,
         MEffect.lock :: rel.2 ++ [MEffect.unlock])
    | some none =>
        (-1, ⟨none, rel.1.type, rel.1.snd_fd⟩,
         MEffect.lock :: rel.2 ++ [MEffect.unlock])
    | some (some a) =>
        (0, ⟨some a, ty, rel.1.snd_fd⟩,
         MEffect.lock :: rel.2 ++ [MEffect.unlock, MEffect.refreshCall])
  else (-1, s, [])

/-- Linux poll bits as used by the plug-in. -/
def POLLIN : Nat := 1

def POLLOUT : Nat := 4

def POLLERR : Nat := 8

def POLLHUP : Nat := 16

/-- What bluealsa_proxy_poll_revents reads: the nfds argument, pcm->pcm_fd,
whether pfd[0].revents has POLLIN, the 64-bit counter value consumed from
event_fd, and the snd_pcm_avail_update result. -/
structure PollRevIn where
  nfds : Nat
  pcm_fd : Int
  pollin : Bool
  event : Nat
  avail : Nat
deriving DecidableEq, Repr

/-- What bluealsa_proxy_poll_revents produces: the return value (negative
errno) and the value stored through the revents pointer, none when the
function returns without writing it. -/
structure PollRevOut where
  ret : Int
  revents : Option Nat
deriving DecidableEq, Repr

/-- bluealsa_proxy_poll_revents (bluealsa-pcm-proxy.c lines 524-564).  Note
the order of the guards: with pcm_fd already -1 the function returns -ENODEV
at line 533 before the event is read and before revents is ever assigned.
The sentinel test masks the event value with 0xDEAD0000; only that branch
stores POLLERR|POLLHUP. -/
def bluealsa_proxy_poll_revents (stream : PcmStreamDir) (i : PollRevIn) :
    PollRevOut :=
  if i.nfds ≠ 1 then ⟨-22, none⟩
  else if i.pcm_fd = -1 then ⟨-19, none⟩
  else if i.pollin then
    if i.event &&& 0xDEAD0000 ≠ 0 then ⟨-19, some (POLLERR ||| POLLHUP)⟩
    else if i.avail = 0 then ⟨0, some 0⟩
    else ⟨0, some (if stream = PcmStreamDir.capture then POLLIN else POLLOUT)⟩
  else ⟨0, some 0⟩

/-- Effects of the worker's exit path. -/
inductive WorkerEff
  | closeTransportEff
  | eventWrite (v : Nat)
deriving DecidableEq, Repr

/-- The final block of io_thread (bluealsa-pcm-proxy.c lines 284-291): close
the transport, then write the sentinel value 0xDEAD0000 to event_fd, once,
as the last action before the thread returns. -/
def io_thread_exit_effects : List WorkerEff :=
  [.closeTransportEff, .eventWrite 0xDEAD0000]

/-- Number of event_fd writes in a trace whose value carries any sentinel
bit. -/
def sentinel_writes (tr : List WorkerEff) : Nat :=
  tr.countP (fun e =>
    match e with
    | .eventWrite v => v &&& 0xDEAD0000 != 0
    | _ => false)

/-- What bluealsa_proxy_delay reads: pcm->pcm_fd, the ioplug pointers, the
FIONREAD ioctl outcome, the stream state and direction, the rate, the cached
pcm->delay and the user delay, the static call counter, and the daemon's
answer to bluealsa_get_transport_delay (none models the -1 failure
return). -/
structure DelayIn where
  pcm_fd : Int
  appl_ptr : Int
  hw_ptr : Int
  fionread_ok : Bool
  fionread : Nat
  frame_size : Nat
  state : SndPcmState
  stream : PcmStreamDir
  rate : Nat
  delay : Int
  delay_ex : Int
  counter : Nat
  transport_delay : Option Nat
deriving DecidableEq, Repr

/-- What bluealsa_proxy_delay produces: return value, the frame count stored
through delayp (none when the function fails before storing it), the updated
cached delay and counter, and whether the daemon was queried this call. -/
structure DelayOut where
  ret : Int
  delayp : Option Int
  delay' : Int
  counter' : Nat
  refreshed : Bool
deriving DecidableEq, Repr

/-- bluealsa_proxy_delay (bluealsa-pcm-proxy.c lines 461-504).  The cached
delay is refreshed only for a playback stream in the RUNNING or DRAINING
state, and then only when pcm->delay == 0 or when the static per-call counter
(incremented by the short-circuited ++counter, hence only when
pcm->delay != 0) hits a multiple of rate/10.  A failed FIONREAD skips the
FIFO term; a failed daemon query keeps the old cached delay. -/
def bluealsa_proxy_delay (i : DelayIn) : DelayOut :=
  if i.pcm_fd = -1 then ⟨-19, none, i.delay, i.counter, false⟩
  else
    let base : Int :=
      if i.fionread_ok then
        i.appl_ptr - i.hw_ptr + ((i.fionread / i.frame_size : Nat) : Int)
      else i.appl_ptr - i.hw_ptr
    let counter' : Nat :=
      if (i.state = SndPcmState.running ∨ i.state = SndPcmState.draining) ∧
          i.stream = PcmStreamDir.playback ∧ i.delay ≠ 0 then
        i.counter + 1
      else i.counter
    if (i.state = SndPcmState.running ∨ i.state = SndPcmState.draining) ∧
        i.stream = PcmStreamDir.playback ∧
        (i.delay = 0 ∨ counter' % (i.rate / 10) = 0) then
      match i.transport_delay with
      | some t =>
          ⟨0, some (base + ((i.rate / 100 * t / 100 : Nat) : Int) + i.delay_ex),
           ((i.rate / 100 * t / 100 : Nat) : Int), counter', true⟩
      | none => ⟨0, some (base + i.delay + i.delay_ex), i.delay, counter', true⟩
    else ⟨0, some (base + i.delay + i.delay_ex), i.delay, counter', false⟩

/-- The byte count bluezalsa_readi requests from snd_fd for a size of
"frames": size * sizeof(int16_t) (bluealsa.c line 439); the transport's
channel count is not consulted. -/
def readi_request_bytes (size : Nat) : Nat := size * 2

/-- The poll revents bluezalsa_readi reacts to in one loop iteration. -/
structure ReadiPollEv where
  snd_pollhup : Bool
  snd_pollin : Bool
  client_pollin : Bool
deriving DecidableEq, Repr

/-- How one iteration of the bluezalsa_readi loop ends: return to the caller
with a value, loop back to poll (detached records whether device_detach ran
first), or jump to the failed label. -/
inductive ReadiIter
  | failed (ret : Int)
  | again (detached : Bool)
  | returned (ret : Int)
deriving DecidableEq, Repr

/-- One iteration of the bluezalsa_readi loop (bluealsa.c lines 401-447),
given the poll result, the revents, the final return value of the
client_event_fd drain read (8 on success), and the snd_fd read result (none
models -1).  A poll error returns the still-zero ret through the failed
label; POLLHUP detaches and loops; a read error on snd_fd is deliberately
not surfaced: the code polls again so the caller never sees it.  On success
the raw read byte count is returned. -/
def bluezalsa_readi_iter (ev : ReadiPollEv) (pollRes : Int)
    (clientReadRet : Int) (readRes : Option Nat) (_size : Nat) : ReadiIter :=
  if pollRes = -1 then .failed 0
  else if pollRes = 0 then .again false
  else if ev.snd_pollhup then .again true
  else if ev.client_pollin ∧ clientReadRet ≠ 8 then .failed clientReadRet
  else if ev.snd_pollin = false then .again false
  else
    match readRes with
    | none => .again false
    | some n => .returned n

/-- Helper: anything divisible by gcd p b is congruent, modulo b, to an
integer multiple of p (Bezout). -/
theorem exists_period_multiple (p b f : ℕ) (hd : Nat.gcd p b ∣ f) :
    ∃ k : ℤ, (b : ℤ) ∣ (f : ℤ) - k * (p : ℤ) := by
  obtain ⟨m, hm⟩ := hd
  have hg : ((Nat.gcd p b : ℕ) : ℤ) =
      (p : ℤ) * Int.gcdA p b + (b : ℤ) * Int.gcdB p b := by
    simpa using Int.gcd_eq_gcd_ab (p : ℤ) (b : ℤ)
  have hf : (f : ℤ) =
      ((p : ℤ) * Int.gcdA p b + (b : ℤ) * Int.gcdB p b) * (m : ℤ) := by
    rw [← hg]
    exact_mod_cast congrArg (fun n : ℕ => (n : ℤ)) hm
  exact ⟨Int.gcdA p b * m, Int.gcdB p b * m, by rw [hf]; ring⟩

/-- Helper: the gcd of period and buffer size divides the clipped period
whenever it divides the current ring position. -/
theorem gcd_dvd_periodFrames (i : PeriodIn)
    (hdvd : Nat.gcd i.period_size i.buffer_size ∣ i.io_ptr) :
    Nat.gcd i.period_size i.buffer_size ∣ periodFrames i := by
  unfold periodFrames
  split
  · exact Nat.dvd_sub' (Nat.gcd_dvd_right _ _) hdvd
  · exact Nat.gcd_dvd_left _ _

/-- Claim C1: for every playback period processed by the worker, underrun is
declared (io->state is set to XRUN) exactly when the advanced hw pointer,
reduced modulo hw_boundary, exceeds the consumer's appl_ptr; in the XRUN
state the worker's dispatch suspends without altering the state, and
bluealsa_proxy_prepare resets both ring-buffer pointers to zero. -/
theorem C1_playback_underrun_iff_xrun (i : PeriodIn) (ws : List WriteRes)
    (hhw : i.io_hw_ptr < i.hw_boundary)
    (hf : periodFrames i ≤ i.hw_boundary) :
    ((playbackStep i ws).stateSet = some SndPcmState.xrun ↔
      (i.io_hw_ptr + periodFrames i) % i.hw_boundary > i.appl_ptr) ∧
    ioThreadDispatch SndPcmState.xrun = DispatchAct.waitResume ∧
    bluealsa_proxy_prepare (playbackStep i ws).published = ⟨0, 0⟩ := by
  refine ⟨?_, rfl, rfl⟩
  have hmod : advanceWrap i.io_hw_ptr (periodFrames i) i.hw_boundary =
      (i.io_hw_ptr + periodFrames i) % i.hw_boundary :=
    advanceWrap_eq_mod _ _ _ (by omega)
  simp only [playbackStep]
  rw [hmod]
  by_cases hgt : (i.io_hw_ptr + periodFrames i) % i.hw_boundary > i.appl_ptr
  · simp [hgt]
  · rw [if_neg hgt]
    split <;> simp [hgt]

/-- Witness for C1 at a concrete period in which the underrun fires: buffer 4,
period 2, boundary 8, hw pointer 2 advancing to 4 past an appl_ptr of 3. -/
theorem C1_playback_underrun_iff_xrun_witness :
    ((playbackStep ⟨0, 2, 4, 8, 2, 3, 2⟩ []).stateSet = some SndPcmState.xrun ↔
      (2 + periodFrames ⟨0, 2, 4, 8, 2, 3, 2⟩) % 8 > 3) ∧
    ioThreadDispatch SndPcmState.xrun = DispatchAct.waitResume ∧
    bluealsa_proxy_prepare (playbackStep ⟨0, 2, 4, 8, 2, 3, 2⟩ []).published =
      ⟨0, 0⟩ :=
  C1_playback_underrun_iff_xrun ⟨0, 2, 4, 8, 2, 3, 2⟩ [] (by decide) (by decide)

/-- Counterexample to claim C4 as stated: on a playback underrun period the
worker publishes new pointers (io_ptr becomes the unsigned -1 marker, the hw
pointer advances) and wakes the consumer through event_fd although not a
single byte of the period was transferred. -/
theorem C4_xrun_publishes_without_transfer :
    (playbackStep ⟨0, 0, 4, 8, 2, 0, 2⟩ []).bytesMoved = 0 ∧
    (playbackStep ⟨0, 0, 4, 8, 2, 0, 2⟩ []).published ≠ ⟨0, 0⟩ ∧
    (playbackStep ⟨0, 0, 4, 8, 2, 0, 2⟩ []).eventWrites = [1] := by decide

/-- Claim C4 (amended): apart from the underrun path, a period iteration
either leaves the published pointers exactly as they were (capture writer
close, fatal errors) or completes the whole transfer of
periodFrames * frame_size bytes and publishes the advance; and every such
advance of io_ptr is congruent modulo buffer_size to an integer number of
periods, preserving divisibility of io_ptr by gcd(period, buffer). -/
theorem C4_period_atomicity (i : PeriodIn) (reads : List ReadRes)
    (ws : List WriteRes) (hio : i.io_ptr < i.buffer_size)
    (hdvd : Nat.gcd i.period_size i.buffer_size ∣ i.io_ptr) :
    ((captureStep i reads).published = ⟨i.io_ptr, i.io_hw_ptr⟩ ∨
      ((captureStep i reads).outcome = StepEnd.nextPeriod ∧
        (captureStep i reads).published.io_ptr =
          advanceWrap i.io_ptr (periodFrames i) i.buffer_size ∧
        (captureStep i reads).bytesMoved = periodFrames i * i.frame_size)) ∧
    ((playbackStep i ws).published = ⟨i.io_ptr, i.io_hw_ptr⟩ ∨
      (playbackStep i ws).stateSet = some SndPcmState.xrun ∨
      ((playbackStep i ws).outcome = StepEnd.nextPeriod ∧
        (playbackStep i ws).published.io_ptr =
          advanceWrap i.io_ptr (periodFrames i) i.buffer_size ∧
        (playbackStep i ws).bytesMoved = periodFrames i * i.frame_size)) ∧
    (∃ k : ℤ, Int.ModEq (i.buffer_size : ℤ)
      ((advanceWrap i.io_ptr (periodFrames i) i.buffer_size : ℕ) : ℤ)
      ((i.io_ptr : ℤ) + k * (i.period_size : ℤ))) ∧
    Nat.gcd i.period_size i.buffer_size ∣
      advanceWrap i.io_ptr (periodFrames i) i.buffer_size := by
  have hfr : Nat.gcd i.period_size i.buffer_size ∣ periodFrames i :=
    gcd_dvd_periodFrames i hdvd
  have hle : i.io_ptr + periodFrames i ≤ i.buffer_size := by
    have := periodFrames_le_sub i
    omega
  refine ⟨?_, ?_, ?_, ?_⟩
  · simp only [captureStep]
    split <;> simp
  · simp only [playbackStep]
    by_cases hgt :
        advanceWrap i.io_hw_ptr (periodFrames i) i.hw_boundary > i.appl_ptr
    · simp [hgt]
    · rw [if_neg hgt]
      split <;> simp
  · obtain ⟨k, hk⟩ :=
      exists_period_multiple i.period_size i.buffer_size (periodFrames i) hfr
    have hk' : (i.buffer_size : ℤ) ∣
        k * (i.period_size : ℤ) - (periodFrames i : ℤ) := by
      have h2 := dvd_neg.mpr hk
      rwa [neg_sub] at h2
    refine ⟨k, Int.modEq_iff_dvd.mpr ?_⟩
    unfold advanceWrap
    by_cases hge : i.io_ptr + periodFrames i ≥ i.buffer_size
    · rw [if_pos hge]
      have hcast : ((i.io_ptr + periodFrames i - i.buffer_size : ℕ) : ℤ) =
          (i.io_ptr : ℤ) + (periodFrames i : ℤ) - (i.buffer_size : ℤ) := by
        push_cast [Nat.cast_sub hge]
        ring
      rw [hcast]
      have heq : (i.io_ptr : ℤ) + k * (i.period_size : ℤ) -
          ((i.io_ptr : ℤ) + (periodFrames i : ℤ) - (i.buffer_size : ℤ)) =
          (k * (i.period_size : ℤ) - (periodFrames i : ℤ)) +
            (i.buffer_size : ℤ) := by
        ring
      rw [heq]
      exact dvd_add hk' dvd_rfl
    · rw [if_neg hge]
      have heq : (i.io_ptr : ℤ) + k * (i.period_size : ℤ) -
          ((i.io_ptr + periodFrames i : ℕ) : ℤ) =
          k * (i.period_size : ℤ) - (periodFrames i : ℤ) := by
        push_cast
        ring
      rw [heq]
      exact hk'
  · unfold advanceWrap
    by_cases hge : i.io_ptr + periodFrames i ≥ i.buffer_size
    · rw [if_pos hge]
      exact Nat.dvd_sub' (Nat.dvd_add hdvd hfr) (Nat.gcd_dvd_right _ _)
    · rw [if_neg hge]
      exact Nat.dvd_add hdvd hfr

/-- Witness for C4 at a concrete completed period: buffer 4, period 2, frame
size 2, one read and one write of the full 4 bytes. -/
theorem C4_period_atomicity_witness :
    (((captureStep ⟨0, 0, 4, 8, 2, 5, 2⟩ [ReadRes.ok 4]).published =
        ⟨0, 0⟩ ∨
      ((captureStep ⟨0, 0, 4, 8, 2, 5, 2⟩ [ReadRes.ok 4]).outcome =
          StepEnd.nextPeriod ∧
        (captureStep ⟨0, 0, 4, 8, 2, 5, 2⟩ [ReadRes.ok 4]).published.io_ptr =
          advanceWrap 0 (periodFrames ⟨0, 0, 4, 8, 2, 5, 2⟩) 4 ∧
        (captureStep ⟨0, 0, 4, 8, 2, 5, 2⟩ [ReadRes.ok 4]).bytesMoved =
          periodFrames ⟨0, 0, 4, 8, 2, 5, 2⟩ * 2))) ∧
    (((playbackStep ⟨0, 0, 4, 8, 2, 5, 2⟩ [WriteRes.ok 4]).published =
        ⟨0, 0⟩ ∨
      (playbackStep ⟨0, 0, 4, 8, 2, 5, 2⟩ [WriteRes.ok 4]).stateSet =
        some SndPcmState.xrun ∨
      ((playbackStep ⟨0, 0, 4, 8, 2, 5, 2⟩ [WriteRes.ok 4]).outcome =
          StepEnd.nextPeriod ∧
        (playbackStep ⟨0, 0, 4, 8, 2, 5, 2⟩ [WriteRes.ok 4]).published.io_ptr =
          advanceWrap 0 (periodFrames ⟨0, 0, 4, 8, 2, 5, 2⟩) 4 ∧
        (playbackStep ⟨0, 0, 4, 8, 2, 5, 2⟩ [WriteRes.ok 4]).bytesMoved =
          periodFrames ⟨0, 0, 4, 8, 2, 5, 2⟩ * 2))) ∧
    (∃ k : ℤ, Int.ModEq ((4 : ℕ) : ℤ)
      ((advanceWrap 0 (periodFrames ⟨0, 0, 4, 8, 2, 5, 2⟩) 4 : ℕ) : ℤ)
      (((0 : ℕ) : ℤ) + k * ((2 : ℕ) : ℤ))) ∧
    Nat.gcd 2 4 ∣ advanceWrap 0 (periodFrames ⟨0, 0, 4, 8, 2, 5, 2⟩) 4 :=
  C4_period_atomicity ⟨0, 0, 4, 8, 2, 5, 2⟩ [ReadRes.ok 4] [WriteRes.ok 4]
    (by decide) (by decide)

/-- Claim C2 (the code contradicts it and its own comment): with bound
profile A2DP and bound address 1, an array whose first transport carries
address 1 but the wrong profile makes the loop select the second transport,
whose address 2 differs from the bound address, because line 175 compares
the bound address against transports->addr, the address of the FIRST array
element, instead of the candidate's own.  The selection the specification
describes finds no transport on this input. -/
theorem C2_match_ignores_candidate_address :
    find_matching_transport BaType.a2dp 1
        [⟨1, BaType.sco, BaStream.capture⟩,
         ⟨2, BaType.a2dp, BaStream.capture⟩] =
      some ⟨2, BaType.a2dp, BaStream.capture⟩ ∧
    (⟨2, BaType.a2dp, BaStream.capture⟩ : BaTransport).addr ≠ 1 ∧
    select_transport_spec BaType.a2dp 1
        [⟨1, BaType.sco, BaStream.capture⟩,
         ⟨2, BaType.a2dp, BaStream.capture⟩] = none := by decide

/-- Counterexample to claim C3 as stated: the detach performed by
bluezalsa_readi on POLLHUP (an attached handle, snd_fd 5) writes snd_fd with
no mutex held and is followed by no client_event_fd notification. -/
theorem C3_readi_detach_unlocked_unnotified :
    setsLocked (readi_pollhup_effects (some 1) 5) = false ∧
    eachSetNotifiedOnce (readi_pollhup_effects (some 1) 5) = false := by
  decide

/-- Claim C3 (amended): inside update_device_attach_state every snd_fd write
does happen under the transport_mutex, and the attach path is followed by
exactly one client_event_fd notification; but detach paths write no
notification at all, and the detach bluezalsa_readi performs on POLLHUP
writes snd_fd without the mutex. -/
theorem C3_snd_fd_mutex_and_notify
    (addr0 : Option Nat) (ba0 snd0 open0 : Int) (ty0 : BaType) (g0 : Bool)
    (ts0 : List BaTransport) (a : Nat) (ba snd fd : Int) (ty : BaType)
    (ts : List BaTransport) (t : BaTransport)
    (hba : ba ≠ -1) (hm : find_matching_transport ty a ts = some t)
    (hfd : fd ≠ -1) (hsnd : snd ≠ -1) :
    setsLocked
      (update_device_attach_state_effects addr0 ba0 snd0 ty0 g0 ts0 open0) =
      true ∧
    update_device_attach_state_effects (some a) ba (-1) ty true ts fd =
      [MEffect.lock, MEffect.openTransport, MEffect.setSndFd fd,
       MEffect.copyTransport, MEffect.notifyClient, MEffect.unlock] ∧
    eachSetNotifiedOnce
      [MEffect.lock, MEffect.openTransport, MEffect.setSndFd fd,
       MEffect.copyTransport, MEffect.notifyClient, MEffect.unlock] = true ∧
    MEffect.notifyClient ∉ device_detach_effects addr0 snd0 ∧
    setsLocked (readi_pollhup_effects (some a) snd) = false := by
  refine ⟨?_, ?_, ?_, ?_, ?_⟩
  · unfold setsLocked update_device_attach_state_effects
    cases addr0 with
    | none => rfl
    | some a0 =>
      by_cases h1 : ba0 = -1
      · simp [h1, setsLockedFrom]
      · by_cases h2 : g0 = false
        · simp [h1, h2, setsLockedFrom]
        · rcases hfind : find_matching_transport ty0 a0 ts0 with _ | t0
          · unfold device_detach_effects
            by_cases h3 : snd0 = -1
            · simp [h1, h2, hfind, h3, setsLockedFrom]
            · simp [h1, h2, hfind, h3, setsLockedFrom]
          · by_cases h4 : snd0 ≠ -1
            · simp [h1, h2, hfind, h4, setsLockedFrom]
            · by_cases h5 : open0 = -1
              · simp [h1, h2, hfind, h4, h5, setsLockedFrom]
              · simp [h1, h2, hfind, h4, h5, setsLockedFrom]
  · unfold update_device_attach_state_effects
    simp [hba, hm, hfd]
  · simp [eachSetNotifiedOnce, notifiesBeforeNextSet]
  · unfold device_detach_effects
    cases addr0 with
    | none => simp
    | some a0 =>
      by_cases h3 : snd0 = -1
      · simp [h3]
      · simp [h3]
  · unfold setsLocked readi_pollhup_effects device_detach_effects
    simp [hsnd, setsLockedFrom]

/-- Witness for C3 (amended) at a concrete attach: bound address 1, daemon
socket 3, previously detached snd_fd -1, a one-element matching transport
array, FIFO fd 6. -/
theorem C3_snd_fd_mutex_and_notify_witness :
    setsLocked
      (update_device_attach_state_effects (some 1) 3 5 BaType.a2dp true [] 6) =
      true ∧
    update_device_attach_state_effects (some 1) 3 (-1) BaType.a2dp true
        [⟨1, BaType.a2dp, BaStream.capture⟩] 6 =
      [MEffect.lock, MEffect.openTransport, MEffect.setSndFd 6,
       MEffect.copyTransport, MEffect.notifyClient, MEffect.unlock] ∧
    eachSetNotifiedOnce
      [MEffect.lock, MEffect.openTransport, MEffect.setSndFd 6,
       MEffect.copyTransport, MEffect.notifyClient, MEffect.unlock] = true ∧
    MEffect.notifyClient ∉ device_detach_effects (some 1) 5 ∧
    setsLocked (readi_pollhup_effects (some 1) 5) = false :=
  C3_snd_fd_mutex_and_notify (some 1) 3 5 6 BaType.a2dp true [] 1 3 5 6
    BaType.a2dp [⟨1, BaType.a2dp, BaStream.capture⟩]
    ⟨1, BaType.a2dp, BaStream.capture⟩ (by decide) (by decide) (by decide)
    (by decide)

/-- Claim C8 (the code contradicts it): releasing a bound handle whose
snd_fd is 5 sets snd_fd to -1 but the effect trace contains no close of fd 5
(bluealsa.c lines 343-346 skip the close that device_detach performs), so
the previously open FIFO descriptor stays open and becomes unreachable. -/
theorem C8_set_device_leaks_fifo_fd :
    (bluezalsa_set_device ⟨some 1, BaType.a2dp, 5⟩ none
        BaType.a2dp).2.1.snd_fd = -1 ∧
    MEffect.closeFd 5 ∉
      (bluezalsa_set_device ⟨some 1, BaType.a2dp, 5⟩ none BaType.a2dp).2.2 ∧
    MEffect.closeFd 5 ∈ device_detach_effects (some 1) 5 := by decide

/-- Counterexample to claim C9 as stated: set_device(NULL, SCO) on an
already detached handle bound to no address returns success but changes the
observable state, because line 364 stores the new profile type
unconditionally. -/
theorem C9_null_set_device_changes_type :
    (bluezalsa_set_device ⟨none, BaType.a2dp, -1⟩ none BaType.sco).1 = 0 ∧
    (bluezalsa_set_device ⟨none, BaType.a2dp, -1⟩ none BaType.sco).2.1 ≠
      (⟨none, BaType.a2dp, -1⟩ : MonState) := by decide

/-- Claim C9 (amended): on a detached handle, set_device(NULL, t) with a
valid t returns success and leaves everything unchanged except the profile
type field, which is set to t; when t already equals the stored type the
call is a complete no-op. -/
theorem C9_set_device_null_detached (s : MonState) (t : BaType)
    (hd : s.addr = none) (ht : t = BaType.a2dp ∨ t = BaType.sco) :
    bluezalsa_set_device s none t =
      (0, ⟨none, t, s.snd_fd⟩, [MEffect.lock, MEffect.unlock]) ∧
    bluezalsa_set_device ⟨none, t, s.snd_fd⟩ none t =
      (0, ⟨none, t, s.snd_fd⟩, [MEffect.lock, MEffect.unlock]) := by
  obtain ⟨sa, sty, sfd⟩ := s
  cases hd
  constructor
  · unfold bluezalsa_set_device
    rw [if_pos ht]
    rfl
  · unfold bluezalsa_set_device
    rw [if_pos ht]
    rfl

/-- Witness for C9 (amended): a handle detached with type A2DP, snd_fd 7,
switched to SCO. -/
theorem C9_set_device_null_detached_witness :
    bluezalsa_set_device ⟨none, BaType.a2dp, 7⟩ none BaType.sco =
      (0, ⟨none, BaType.sco, 7⟩, [MEffect.lock, MEffect.unlock]) ∧
    bluezalsa_set_device ⟨none, BaType.sco, 7⟩ none BaType.sco =
      (0, ⟨none, BaType.sco, 7⟩, [MEffect.lock, MEffect.unlock]) :=
  C9_set_device_null_detached ⟨none, BaType.a2dp, 7⟩ BaType.sco rfl
    (Or.inr rfl)

/-- Claim C10: set_device with a malformed non-null address on a handle with
a bound address fails with -1, yet the previously bound address has already
been released (addr is cleared) while the profile type keeps its old value,
so the state is not left unchanged on error. -/
theorem C10_malformed_addr_partial_state (s : MonState) (a : Nat)
    (t : BaType) (hb : s.addr = some a)
    (ht : t = BaType.a2dp ∨ t = BaType.sco) :
    (bluezalsa_set_device s (some none) t).1 = -1 ∧
    (bluezalsa_set_device s (some none) t).2.1.addr = none ∧
    (bluezalsa_set_device s (some none) t).2.1.type = s.type ∧
    (bluezalsa_set_device s (some none) t).2.1 ≠ s := by
  obtain ⟨sa, sty, sfd⟩ := s
  cases hb
  unfold bluezalsa_set_device
  rw [if_pos ht]
  refine ⟨rfl, rfl, rfl, ?_⟩
  intro h
  exact Option.noConfusion (congrArg MonState.addr h)

/-- Witness for C10: a handle bound to address 2 with type SCO and snd_fd 5,
called with a malformed address string and type A2DP. -/
theorem C10_malformed_addr_partial_state_witness :
    (bluezalsa_set_device ⟨some 2, BaType.sco, 5⟩ (some none)
        BaType.a2dp).1 = -1 ∧
    (bluezalsa_set_device ⟨some 2, BaType.sco, 5⟩ (some none)
        BaType.a2dp).2.1.addr = none ∧
    (bluezalsa_set_device ⟨some 2, BaType.sco, 5⟩ (some none)
        BaType.a2dp).2.1.type = (⟨some 2, BaType.sco, 5⟩ : MonState).type ∧
    (bluezalsa_set_device ⟨some 2, BaType.sco, 5⟩ (some none)
        BaType.a2dp).2.1 ≠ (⟨some 2, BaType.sco, 5⟩ : MonState) :=
  C10_malformed_addr_partial_state ⟨some 2, BaType.sco, 5⟩ 2 BaType.a2dp rfl
    (Or.inl rfl)

/-- Counterexample to claim C5 as stated: once the worker has closed the
transport (pcm_fd = -1), a poll_revents call returns -ENODEV at line 533
without ever writing revents, so POLLERR|POLLHUP is not reported there. -/
theorem C5_detached_poll_revents_no_flags :
    bluealsa_proxy_poll_revents PcmStreamDir.playback
        ⟨1, -1, true, 0xDEAD0000, 0⟩ = ⟨-19, none⟩ ∧
    (bluealsa_proxy_poll_revents PcmStreamDir.playback
        ⟨1, -1, true, 0xDEAD0000, 0⟩).revents ≠
      some (POLLERR ||| POLLHUP) := by decide

/-- Claim C5 (amended): the worker's exit path closes the transport and then
writes the 0xDEAD0000 sentinel to event_fd exactly once as its last action;
a poll_revents call that consumes an event with any sentinel bit set while
pcm_fd is still attached stores POLLERR|POLLHUP and returns -ENODEV; but a
call made after the worker has closed the transport returns -ENODEV without
writing revents at all. -/
theorem C5_sentinel_write_and_revents (stream : PcmStreamDir)
    (i : PollRevIn) (h1 : i.nfds = 1) (h2 : i.pcm_fd ≠ -1)
    (h3 : i.pollin = true) (h4 : i.event &&& 0xDEAD0000 ≠ 0) :
    bluealsa_proxy_poll_revents stream i =
      ⟨-19, some (POLLERR ||| POLLHUP)⟩ ∧
    sentinel_writes io_thread_exit_effects = 1 ∧
    io_thread_exit_effects.getLast? =
      some (WorkerEff.eventWrite 0xDEAD0000) ∧
    io_thread_exit_effects.head? = some WorkerEff.closeTransportEff ∧
    bluealsa_proxy_poll_revents stream ⟨1, -1, i.pollin, i.event, i.avail⟩ =
      ⟨-19, none⟩ := by
  refine ⟨?_, by decide, rfl, rfl, rfl⟩
  unfold bluealsa_proxy_poll_revents
  rw [h1, h3]
  simp [h2, h4]

/-- Witness for C5 (amended) with an attached pcm_fd of 3 consuming the
sentinel value itself. -/
theorem C5_sentinel_write_and_revents_witness :
    bluealsa_proxy_poll_revents PcmStreamDir.capture
        ⟨1, 3, true, 0xDEAD0000, 0⟩ =
      ⟨-19, some (POLLERR ||| POLLHUP)⟩ ∧
    sentinel_writes io_thread_exit_effects = 1 ∧
    io_thread_exit_effects.getLast? =
      some (WorkerEff.eventWrite 0xDEAD0000) ∧
    io_thread_exit_effects.head? = some WorkerEff.closeTransportEff ∧
    bluealsa_proxy_poll_revents PcmStreamDir.capture
        ⟨1, -1, true, 0xDEAD0000, 0⟩ = ⟨-19, none⟩ :=
  C5_sentinel_write_and_revents PcmStreamDir.capture
    ⟨1, 3, true, 0xDEAD0000, 0⟩ rfl (by decide) rfl (by decide)

/-- Counterexample to claim C6 as stated: for 4 frames on a 2-channel
transport the claim requires a read of 4 * 2 * 2 = 16 bytes, but
bluezalsa_readi requests size * sizeof(int16_t) = 8 bytes, ignoring the
channel count. -/
theorem C6_read_bytes_counterexample :
    readi_request_bytes 4 = 8 ∧ readi_request_bytes 4 ≠ 4 * 2 * 2 := by
  decide

/-- Claim C6 (amended): on POLLIN of snd_fd the operation requests
size * 2 bytes (one int16 per frame unit, channel count not consulted), and
a read error on snd_fd is never surfaced to the caller: the iteration loops
back to polling instead of returning an error. -/
theorem C6_readi_bytes_and_error_loop (size : Nat) (ev : ReadiPollEv)
    (cr : Int) (h1 : ev.snd_pollhup = false) (h2 : ev.snd_pollin = true)
    (h3 : ev.client_pollin = false) :
    readi_request_bytes size = size * 2 ∧
    bluezalsa_readi_iter ev 1 cr none size = ReadiIter.again false := by
  refine ⟨rfl, ?_⟩
  unfold bluezalsa_readi_iter
  simp [h1, h2, h3]

/-- Witness for C6 (amended) at 4 frames with a failing snd_fd read. -/
theorem C6_readi_bytes_and_error_loop_witness :
    readi_request_bytes 4 = 4 * 2 ∧
    bluezalsa_readi_iter ⟨false, true, false⟩ 1 8 none 4 =
      ReadiIter.again false :=
  C6_readi_bytes_and_error_loop 4 ⟨false, true, false⟩ 8 rfl rfl rfl

/-- Counterexample to claim C7 as stated: two successive delay calls with
identical pointers (zero frames elapsed) both query the daemon, because the
cached delay of 0 short-circuits the rate/10 counter gate; rate/10 = 4800 is
positive, so the refresh happens more often than once per rate/10 frames. -/
theorem C7_refresh_counterexample :
    (bluealsa_proxy_delay ⟨3, 0, 0, true, 0, 4, SndPcmState.running,
        PcmStreamDir.playback, 48000, 0, 0, 0, some 0⟩).refreshed = true ∧
    (bluealsa_proxy_delay ⟨3, 0, 0, true, 0, 4, SndPcmState.running,
        PcmStreamDir.playback, 48000,
        (bluealsa_proxy_delay ⟨3, 0, 0, true, 0, 4, SndPcmState.running,
            PcmStreamDir.playback, 48000, 0, 0, 0, some 0⟩).delay', 0,
        (bluealsa_proxy_delay ⟨3, 0, 0, true, 0, 4, SndPcmState.running,
            PcmStreamDir.playback, 48000, 0, 0, 0, some 0⟩).counter',
        some 0⟩).refreshed = true ∧
    (0 : Nat) < 48000 / 10 := by decide

/-- Claim C7 (amended): with pcm_fd attached and FIONREAD succeeding, delay
returns 0 and stores (appl_ptr - hw_ptr) + fionread / frame_size + the
(possibly refreshed) cached delay + delay_ex; the daemon is queried exactly
when the stream is playback in RUNNING or DRAINING state and either the
cached delay is 0 or the per-call counter hits a multiple of rate/10; with
pcm_fd detached the call returns -ENODEV without storing a delay. -/
theorem C7_delay_formula (i : DelayIn) (h1 : i.pcm_fd ≠ -1)
    (h2 : i.fionread_ok = true) :
    (bluealsa_proxy_delay i).ret = 0 ∧
    (bluealsa_proxy_delay i).delayp =
      some (i.appl_ptr - i.hw_ptr + ((i.fionread / i.frame_size : Nat) : Int) +
        (bluealsa_proxy_delay i).delay' + i.delay_ex) ∧
    ((bluealsa_proxy_delay i).refreshed = true ↔
      ((i.state = SndPcmState.running ∨ i.state = SndPcmState.draining) ∧
        i.stream = PcmStreamDir.playback ∧
        (i.delay = 0 ∨
          (bluealsa_proxy_delay i).counter' % (i.rate / 10) = 0))) ∧
    (bluealsa_proxy_delay ⟨-1, i.appl_ptr, i.hw_ptr, i.fionread_ok,
        i.fionread, i.frame_size, i.state, i.stream, i.rate, i.delay,
        i.delay_ex, i.counter, i.transport_delay⟩).ret = -19 ∧
    (bluealsa_proxy_delay ⟨-1, i.appl_ptr, i.hw_ptr, i.fionread_ok,
        i.fionread, i.frame_size, i.state, i.stream, i.rate, i.delay,
        i.delay_ex, i.counter, i.transport_delay⟩).delayp = none := by
  refine ⟨?_, ?_, ?_, rfl, rfl⟩ <;>
    · cases htd : i.transport_delay <;>
        · simp only [bluealsa_proxy_delay, if_neg h1, h2, if_true, htd]
          split_ifs <;> simp_all

/-- Witness for C7 (amended): appl 10, hw 4, 8 bytes in the FIFO at frame
size 4, running playback at 48000 with cached delay 0 and a daemon answer of
100 deciseconds. -/
theorem C7_delay_formula_witness :
    (bluealsa_proxy_delay ⟨3, 10, 4, true, 8, 4, SndPcmState.running,
        PcmStreamDir.playback, 48000, 0, 2, 0, some 100⟩).ret = 0 ∧
    (bluealsa_proxy_delay ⟨3, 10, 4, true, 8, 4, SndPcmState.running,
        PcmStreamDir.playback, 48000, 0, 2, 0, some 100⟩).delayp =
      some ((10 : Int) - 4 + ((8 / 4 : Nat) : Int) +
        (bluealsa_proxy_delay ⟨3, 10, 4, true, 8, 4, SndPcmState.running,
            PcmStreamDir.playback, 48000, 0, 2, 0, some 100⟩).delay' + 2) ∧
    ((bluealsa_proxy_delay ⟨3, 10, 4, true, 8, 4, SndPcmState.running,
        PcmStreamDir.playback, 48000, 0, 2, 0, some 100⟩).refreshed = true ↔
      ((SndPcmState.running = SndPcmState.running ∨
          SndPcmState.running = SndPcmState.draining) ∧
        PcmStreamDir.playback = PcmStreamDir.playback ∧
        ((0 : Int) = 0 ∨
          (bluealsa_proxy_delay ⟨3, 10, 4, true, 8, 4, SndPcmState.running,
              PcmStreamDir.playback, 48000, 0, 2, 0,
              some 100⟩).counter' % (48000 / 10) = 0))) ∧
    (bluealsa_proxy_delay ⟨-1, 10, 4, true, 8, 4, SndPcmState.running,
        PcmStreamDir.playback, 48000, 0, 2, 0, some 100⟩).ret = -19 ∧
    (bluealsa_proxy_delay ⟨-1, 10, 4, true, 8, 4, SndPcmState.running,
        PcmStreamDir.playback, 48000, 0, 2, 0, some 100⟩).delayp = none :=
  C7_delay_formula ⟨3, 10, 4, true, 8, 4, SndPcmState.running,
    PcmStreamDir.playback, 48000, 0, 2, 0, some 100⟩ (by decide) rfl
